import Mathlib

/-!
# Verification of the calendly-analytics core pipeline

A shallow embedding of the data-acquisition and analytics core of the
`calendly-analytics` repository:

* `backend/app/services/calendly_service.py` — the paginating, rate-limited
  API client (`get_json`, `paginate`, `_extract_items_from_response`) and the
  bulk downloader (`download_all_data`);
* `backend/app/services/data_processor.py` — the record reconciler
  (`load_data`, `create_analytics_dataframe` and its three tier builders);
* `backend/app/services/analytics_service.py` — the aggregation engine
  (summary metrics, per-internal-note breakdown, seasonal trends, outliers).

JSON values are modelled by the inductive `Json`; Python dicts become
association lists (the upstream payloads have unique keys), Python truthiness
becomes `Json.truthy`, and Python `==` on JSON values becomes the structural
`Json.beq` (the payload values actually compared — URIs — are strings, where
the two coincide).  The unbounded `while` loops of the client are modelled
with an explicit fuel argument, `none` meaning the loop is still running (or
the Python code raised); pandas columns become explicit `cols` lists on the
reconciled frame, and pandas `NaN`/`None` cells become `Option` fields.
Floating-point z-scores are modelled exactly: `|z| > 2` is squared and
multiplied through by the (positive) cube of the day count into the
integer test `n * (n*c - S)^2 > 4 * sum of (n*c_j - S)^2`, which agrees
with scipy's NaN behaviour when the variance is zero.
-/

/-- A JSON value, as produced by `response.json()` / `json.load`.  Objects
are association lists in document order (Python 3 dicts preserve insertion
order and the API payloads have unique keys). -/
inductive Json where
  | null : Json
  | bool (b : Bool) : Json
  | num (n : Int) : Json
  | str (s : String) : Json
  | arr (elems : List Json) : Json
  | obj (fields : List (String × Json)) : Json

namespace Json

/-- `d.get(k)` on a Python dict: the first binding of `k`, if any.  On a
non-object this is `none` (callers that would raise in Python are modelled
with `Except` at their call sites). -/
def lookup : Json → String → Option Json
  | obj fields, k => fields.lookup k
  | _, _ => none

/-- Python truthiness of a JSON value (`if x:`). -/
def truthy : Json → Bool
  | null => false
  | bool b => b
  | num n => n != 0
  | str s => s != ""
  | arr es => !es.isEmpty
  | obj fs => !fs.isEmpty

mutual

/-- Structural equality of JSON values (Python `==`; object fields compared
in order, which agrees with Python on the string-valued URIs the code
compares). -/
def beq : Json → Json → Bool
  | obj fs1, obj fs2 => beqObj fs1 fs2
  | arr es1, arr es2 => beqList es1 es2
  | str s1, str s2 => s1 == s2
  | num n1, num n2 => n1 == n2
  | bool b1, bool b2 => b1 == b2
  | null, null => true
  | _, _ => false

/-- `beq` on JSON arrays, elementwise. -/
def beqList : List Json → List Json → Bool
  | e1 :: t1, e2 :: t2 => beq e1 e2 && beqList t1 t2
  | [], [] => true
  | _, _ => false

/-- `beq` on JSON objects, field-by-field in order. -/
def beqObj : List (String × Json) → List (String × Json) → Bool
  | (k1, v1) :: t1, (k2, v2) :: t2 => k1 == k2 && beq v1 v2 && beqObj t1 t2
  | [], [] => true
  | _, _ => false

end

/-- `x.isArr` is true when `x` is a JSON array. -/
def isArr : Json → Bool
  | arr _ => true
  | _ => false

/-- `x.isObj` is true when `x` is a JSON object. -/
def isObj : Json → Bool
  | obj _ => true
  | _ => false

/-- The string content of a JSON value, `""` for non-strings (the code's
`.get(k, '')` defaults). -/
def asStr : Json → String
  | str s => s
  | _ => ""

end Json

/-! ## `CalendlyService._extract_items_from_response`

```python
if isinstance(resp, dict):
    if "collection" in resp: return resp["collection"]
    if "data" in resp:       return resp["data"]
    if "resources" in resp:  return resp["resources"]
    items = []
    for k, v in resp.items():
        if k not in ("pagination", "meta"):
            items.append({k: v})
    return items
if isinstance(resp, list): return resp
return []
```
-/

/-- Normalize one of the heterogeneous Calendly response envelopes into its
item payload.  The Python function's declared return type is a list, but for
the `collection`/`data`/`resources` envelopes it returns the stored value
unchecked, so the model returns a `Json` value. -/
def extract_items_from_response (resp : Json) : Json :=
  match resp with
  | Json.obj fields =>
    match Json.lookup resp "collection" with
    | some v => v
    | none =>
      match Json.lookup resp "data" with
      | some v => v
      | none =>
        match Json.lookup resp "resources" with
        | some v => v
        | none =>
          Json.arr ((fields.filter
            (fun kv => kv.1 ≠ "pagination" ∧ kv.1 ≠ "meta")).map
            (fun kv => Json.obj [kv]))
  | Json.arr es => Json.arr es
  | _ => Json.arr []

/-- C3: for every JSON payload, `_extract_items_from_response` returns, in
priority order: the value under `collection` for a mapping containing that
key; else the value under `data`; else the value under `resources`; else,
for a mapping with none of those keys, one single-key pseudo-item per
top-level key excluding `pagination` and `meta`; and a list payload is
returned unchanged. -/
theorem extract_items_priority_order :
    (∀ fields v, (Json.obj fields).lookup "collection" = some v →
      extract_items_from_response (Json.obj fields) = v)
    ∧ (∀ fields v, (Json.obj fields).lookup "collection" = none →
        (Json.obj fields).lookup "data" = some v →
        extract_items_from_response (Json.obj fields) = v)
    ∧ (∀ fields v, (Json.obj fields).lookup "collection" = none →
        (Json.obj fields).lookup "data" = none →
        (Json.obj fields).lookup "resources" = some v →
        extract_items_from_response (Json.obj fields) = v)
    ∧ (∀ fields, (Json.obj fields).lookup "collection" = none →
        (Json.obj fields).lookup "data" = none →
        (Json.obj fields).lookup "resources" = none →
        extract_items_from_response (Json.obj fields) =
          Json.arr ((fields.filter
            (fun kv => kv.1 ≠ "pagination" ∧ kv.1 ≠ "meta")).map
            (fun kv => Json.obj [kv])))
    ∧ (∀ es, extract_items_from_response (Json.arr es) = Json.arr es) := by
  refine ⟨?_, ?_, ?_, ?_, ?_⟩
  · intro fields v h
    simp [extract_items_from_response, h]
  · intro fields v h1 h2
    simp [extract_items_from_response, h1, h2]
  · intro fields v h1 h2 h3
    simp [extract_items_from_response, h1, h2, h3]
  · intro fields h1 h2 h3
    simp [extract_items_from_response, h1, h2, h3]
  · intro es
    rfl

/-- Witness for C3: the five priority cases evaluated on concrete envelopes. -/
theorem extract_items_priority_order_witness :
    extract_items_from_response
        (Json.obj [("collection", Json.arr [Json.num 1]), ("data", Json.num 2)])
      = Json.arr [Json.num 1]
    ∧ extract_items_from_response
        (Json.obj [("data", Json.arr [Json.num 2])]) = Json.arr [Json.num 2]
    ∧ extract_items_from_response
        (Json.obj [("resources", Json.arr [])]) = Json.arr []
    ∧ extract_items_from_response
        (Json.obj [("pagination", Json.null), ("a", Json.num 7)])
      = Json.arr [Json.obj [("a", Json.num 7)]]
    ∧ extract_items_from_response (Json.arr [Json.null]) = Json.arr [Json.null] := by
  refine ⟨?_, ?_, ?_, ?_, ?_⟩
  · exact extract_items_priority_order.1 _ _ rfl
  · exact extract_items_priority_order.2.1 _ _ rfl rfl
  · exact extract_items_priority_order.2.2.1 _ _ rfl rfl rfl
  · exact extract_items_priority_order.2.2.2.1 _ rfl rfl rfl
  · exact extract_items_priority_order.2.2.2.2 _

/-! ## `CalendlyService.paginate`

```python
params = params or {}
results = []
next_url = url
next_params = params.copy()
while next_url:
    resp = await self.get_json(next_url, next_params)
    items = self._extract_items_from_response(resp)
    results.extend(items)
    pagination = resp.get("pagination") or resp.get("meta", {}).get("pagination") or {}
    next_page = pagination.get("next_page")
    if next_page:
        next_url = next_page
        next_params = {}
    else:
        next_url = None
return results
```

The `while` loop is modelled with a fuel argument; `none` means the loop is
still running after `fuel` pages, or the Python raised (`.get` on a non-dict
envelope, `extend` over a non-list payload, or a non-string cursor handed to
the HTTP layer).
-/

/-- `pagination.get("next_page")` on a truthy pagination value, which the
Python reaches only when that value is truthy: raises unless it is a dict. -/
def truthyPagGet : Json → Except Unit Json
  | Json.obj pfs => .ok (((Json.obj pfs).lookup "next_page").getD Json.null)
  | _ => .error ()

/-- `(b or {}).get("next_page")` for the meta-fallback pagination value `b`:
a falsy `b` is replaced by `{}` (whose `next_page` is `None`). -/
def pagCursorGet (b : Json) : Except Unit Json :=
  if b.truthy then truthyPagGet b else .ok Json.null

/-- `m.get("pagination")`-then-`.get("next_page")` on the value `m` of
`resp.get("meta", {})`: raises unless `m` is a dict. -/
def metaPagCursor : Json → Except Unit Json
  | Json.obj mfs => pagCursorGet (((Json.obj mfs).lookup "pagination").getD Json.null)
  | _ => .error ()

/-- The `resp.get("meta", {}).get("pagination")` fallback of the cursor
lookup (reached when `resp.get("pagination")` is falsy). -/
def metaCursorOf (resp : Json) : Except Unit Json :=
  metaPagCursor ((resp.lookup "meta").getD (Json.obj []))

/-- The cursor envelope lookup
`(resp.get("pagination") or resp.get("meta", {}).get("pagination") or {}).get("next_page")`,
returning `.error ()` exactly where the Python expression raises. -/
def nextPageOf : Json → Except Unit Json
  | Json.obj fs =>
    if (((Json.obj fs).lookup "pagination").getD Json.null).truthy then
      truthyPagGet (((Json.obj fs).lookup "pagination").getD Json.null)
    else metaCursorOf (Json.obj fs)
  | _ => .error ()

/-- The cursor the loop follows from a page: the truthy string `next_page`
value, when there is one. -/
def nextCursor (resp : Json) : Option String :=
  match nextPageOf resp with
  | .ok (Json.str s) => if s = "" then none else some s
  | _ => none

/-- A well-typed `next_page` value: a string, or falsy (anything else would
be handed to the HTTP layer as a URL and raise). -/
def cursorValOk : Json → Bool
  | Json.str _ => true
  | v => !v.truthy

/-- The `next_page` field of a pagination object is absent or well-typed. -/
def cursorFieldOk (p : Json) : Bool :=
  match p.lookup "next_page" with
  | none => true
  | some v => cursorValOk v

/-- A `pagination` value either is falsy (skipped by `or`) or is an object
with a well-typed `next_page` field. -/
def paginationFieldOk : Option Json → Bool
  | none => true
  | some p => !p.truthy || (p.isObj && cursorFieldOk p)

/-- The value of `resp.get("meta", {})` is an object whose `pagination`
field is itself well-typed. -/
def metaValOk : Json → Bool
  | Json.obj mfs => paginationFieldOk ((Json.obj mfs).lookup "pagination")
  | _ => false

/-- A `meta` value, when present, is an object whose `pagination` field is
itself well-typed. -/
def metaFieldOk (r : Json) : Bool :=
  metaValOk ((r.lookup "meta").getD (Json.obj []))

/-- One of the four normalized envelope shapes of
`_extract_items_from_response` (a mapping whose item payload is a list),
with well-typed pagination metadata. -/
def wellformedEnvelope (r : Json) : Bool :=
  r.isObj && (extract_items_from_response r).isArr
    && paginationFieldOk (r.lookup "pagination") && metaFieldOk r

/-- The item list of a page (the elements `results.extend(items)` appends). -/
def itemsOf (resp : Json) : List Json :=
  match extract_items_from_response resp with
  | Json.arr es => es
  | _ => []

/-- `CalendlyService.paginate`, with `fetch` standing for `get_json` and an
explicit fuel bound on the number of pages: `none` means the loop is still
running after `fuel` pages or the Python raised. -/
def paginateFuel (fetch : String → List (String × Json) → Json) :
    Nat → String → List (String × Json) → Option (List Json)
  | 0, _, _ => none
  | fuel + 1, url, params =>
    match extract_items_from_response (fetch url params) with
    | Json.arr items =>
      match nextPageOf (fetch url params) with
      | .error _ => none
      | .ok np =>
        if np.truthy then
          match np with
          | Json.str s => (paginateFuel fetch fuel s []).map (fun rest => items ++ rest)
          | _ => none
        else some items
    | _ => none

/-- One page visit of the pagination loop: the request issued and the
response received. -/
structure PageVisit where
  url : String
  params : List (String × Json)
  resp : Json

/-- The request/response trace of the pagination loop, page by page. -/
def pageTrace (fetch : String → List (String × Json) → Json) :
    Nat → String → List (String × Json) → List PageVisit
  | 0, _, _ => []
  | fuel + 1, url, params =>
    ⟨url, params, fetch url params⟩ ::
      (match nextCursor (fetch url params) with
       | some u => pageTrace fetch fuel u []
       | none => [])

/-- A trace is closed when it is nonempty and its final page carries no
`next_page` cursor (the loop exited rather than running out of fuel). -/
def closesTrace : List PageVisit → Bool
  | [] => false
  | [v] => (nextCursor v.resp).isNone
  | _ :: v :: rest => closesTrace (v :: rest)

/-- The concatenation of the extracted items of a trace, in page-arrival
order. -/
def concatItems (l : List PageVisit) : List Json :=
  l.foldr (fun v acc => itemsOf v.resp ++ acc) []

/-- A well-typed `next_page` field is a nonempty string or falsy. -/
theorem cursorField_np (pfs : List (String × Json))
    (hok : cursorFieldOk (Json.obj pfs) = true) :
    (∃ s, s ≠ "" ∧ ((Json.obj pfs).lookup "next_page").getD Json.null = Json.str s)
    ∨ (((Json.obj pfs).lookup "next_page").getD Json.null).truthy = false := by
  unfold cursorFieldOk at hok
  cases hnp : (Json.obj pfs).lookup "next_page" with
  | none => right; simp [hnp, Json.truthy]
  | some v =>
    rw [hnp] at hok
    simp only [] at hok
    cases v with
    | str s =>
      by_cases hs : s = ""
      · right; simp [hnp, hs, Json.truthy]
      · left; exact ⟨s, hs, by simp [hnp]⟩
    | null => right; simp [hnp, Json.truthy]
    | bool b => right; simpa [hnp, cursorValOk, Bool.not_eq_true'] using hok
    | num n => right; simpa [hnp, cursorValOk, Bool.not_eq_true'] using hok
    | arr es => right; simpa [hnp, cursorValOk, Bool.not_eq_true'] using hok
    | obj fs => right; simpa [hnp, cursorValOk, Bool.not_eq_true'] using hok

/-- On a well-formed envelope, the extracted payload is the `itemsOf` list. -/
theorem wf_extract (r : Json) (h : wellformedEnvelope r = true) :
    extract_items_from_response r = Json.arr (itemsOf r) := by
  have h2 : (extract_items_from_response r).isArr = true := by
    simp only [wellformedEnvelope, Bool.and_eq_true] at h
    exact h.1.1.2
  unfold itemsOf
  cases hx : extract_items_from_response r <;> rw [hx] at h2 <;>
    simp_all [Json.isArr]

/-- On a well-formed envelope, the cursor lookup does not raise and yields
either a nonempty string cursor or a falsy value. -/
theorem nextPage_ok_of_wf (r : Json) (h : wellformedEnvelope r = true) :
    ∃ np, nextPageOf r = .ok np ∧
      ((∃ s, s ≠ "" ∧ np = Json.str s) ∨ np.truthy = false) := by
  simp only [wellformedEnvelope, Bool.and_eq_true] at h
  obtain ⟨⟨⟨hobj, _harr⟩, hpf⟩, hmf⟩ := h
  obtain ⟨fs, rfl⟩ : ∃ fs, r = Json.obj fs := by
    cases r <;> simp [Json.isObj] at hobj ⊢
  have hmeta : ∃ np, metaCursorOf (Json.obj fs) = .ok np ∧
      ((∃ s, s ≠ "" ∧ np = Json.str s) ∨ np.truthy = false) := by
    unfold metaFieldOk at hmf
    unfold metaCursorOf
    cases hm : (Json.obj fs).lookup "meta" with
    | none =>
      refine ⟨Json.null, ?_, Or.inr rfl⟩
      simp [hm, metaPagCursor, pagCursorGet, Json.lookup, Json.truthy]
    | some m =>
      rw [hm] at hmf
      simp only [Option.getD_some] at hmf ⊢
      cases m with
      | obj mfs =>
        simp only [metaValOk] at hmf
        simp only [metaPagCursor]
        cases hp2 : (Json.obj mfs).lookup "pagination" with
        | none =>
          refine ⟨Json.null, ?_, Or.inr rfl⟩
          simp [hp2, pagCursorGet, Json.truthy]
        | some p =>
          rw [hp2] at hmf
          simp only [paginationFieldOk] at hmf
          simp only [Option.getD_some]
          cases htr : p.truthy with
          | false =>
            refine ⟨Json.null, ?_, Or.inr rfl⟩
            simp [pagCursorGet, htr]
          | true =>
            rw [htr] at hmf
            simp only [Bool.not_true, Bool.false_or, Bool.and_eq_true] at hmf
            obtain ⟨hpo, hcf⟩ := hmf
            obtain ⟨pfs, rfl⟩ : ∃ pfs, p = Json.obj pfs := by
              cases p <;> simp [Json.isObj] at hpo ⊢
            refine ⟨_, ?_, cursorField_np pfs hcf⟩
            simp [pagCursorGet, htr, truthyPagGet]
      | null => simp [metaValOk] at hmf
      | bool b => simp [metaValOk] at hmf
      | num n => simp [metaValOk] at hmf
      | str s => simp [metaValOk] at hmf
      | arr es => simp [metaValOk] at hmf
  cases hp : (Json.obj fs).lookup "pagination" with
  | none =>
    have heq : nextPageOf (Json.obj fs) = metaCursorOf (Json.obj fs) := by
      simp [nextPageOf, hp, Json.truthy]
    rw [heq]
    exact hmeta
  | some p =>
    rw [hp] at hpf
    simp only [paginationFieldOk] at hpf
    cases htr : p.truthy with
    | false =>
      have heq : nextPageOf (Json.obj fs) = metaCursorOf (Json.obj fs) := by
        simp [nextPageOf, hp, htr]
      rw [heq]
      exact hmeta
    | true =>
      rw [htr] at hpf
      simp only [Bool.not_true, Bool.false_or, Bool.and_eq_true] at hpf
      obtain ⟨hpo, hcf⟩ := hpf
      obtain ⟨pfs, rfl⟩ : ∃ pfs, p = Json.obj pfs := by
        cases p <;> simp [Json.isObj] at hpo ⊢
      refine ⟨_, ?_, cursorField_np pfs hcf⟩
      simp [nextPageOf, hp, htr, truthyPagGet]

/-- `nextCursor` in terms of a successful `nextPageOf`. -/
theorem nextCursor_of_ok (r np : Json) (hok : nextPageOf r = .ok np) :
    (∀ s, s ≠ "" → np = Json.str s → nextCursor r = some s)
    ∧ (np.truthy = false → nextCursor r = none) := by
  constructor
  · intro s hs hnp
    subst hnp
    unfold nextCursor
    rw [hok]
    simp [hs]
  · intro ht
    unfold nextCursor
    rw [hok]
    cases np with
    | str s =>
      simp only [Json.truthy, bne, Bool.not_eq_true'] at ht
      have : s = "" := by simpa using ht
      simp [this]
    | null => rfl
    | bool b => rfl
    | num n => rfl
    | arr es => rfl
    | obj fs => rfl

/-- A pagination trace with positive fuel starts with its first page visit. -/
theorem pageTrace_ne_nil (fetch : String → List (String × Json) → Json)
    (m : Nat) (u : String) (p : List (String × Json)) :
    pageTrace fetch (m + 1) u p ≠ [] := by
  simp only [pageTrace]
  exact List.cons_ne_nil _ _

/-- `closesTrace` only looks at the tail of a nonempty-tailed trace. -/
theorem closesTrace_cons (x : PageVisit) (rest : List PageVisit)
    (h : rest ≠ []) : closesTrace (x :: rest) = closesTrace rest := by
  cases rest with
  | nil => exact absurd rfl h
  | cons b l => rfl

/-- C1: every terminating run of `paginate` over well-formed envelopes
fetches the first page with the caller's URL and parameters, follows the
`next_page` cursor of each page — taken from `response.pagination` when that
value is truthy, failing that from `response.meta.pagination` — with all
explicit query parameters dropped on every cursor request, stops at the
first page carrying no cursor, and returns the concatenation of every
page's extracted items in page-arrival order, with no duplication and no
drops. -/
theorem paginate_follows_cursors
    (fetch : String → List (String × Json) → Json) :
    ∀ (fuel : Nat) (url : String) (params : List (String × Json)),
    (∀ v ∈ pageTrace fetch fuel url params, wellformedEnvelope v.resp = true) →
    closesTrace (pageTrace fetch fuel url params) = true →
    paginateFuel fetch fuel url params
        = some (concatItems (pageTrace fetch fuel url params))
    ∧ (pageTrace fetch fuel url params).head? = some ⟨url, params, fetch url params⟩
    ∧ List.Chain' (fun a b => nextCursor a.resp = some b.url ∧ b.params = []
        ∧ b.resp = fetch b.url []) (pageTrace fetch fuel url params) := by
  intro fuel
  induction fuel with
  | zero =>
    intro url params _ hend
    simp [pageTrace, closesTrace] at hend
  | succ n ih =>
    intro url params hwf hend
    have hwf0 : wellformedEnvelope (fetch url params) = true := by
      apply hwf ⟨url, params, fetch url params⟩
      simp [pageTrace]
    obtain ⟨np, hok, hcase⟩ := nextPage_ok_of_wf _ hwf0
    have hext := wf_extract _ hwf0
    rcases hcase with ⟨s, hs, rfl⟩ | hfalse
    · have hcur : nextCursor (fetch url params) = some s :=
        (nextCursor_of_ok _ _ hok).1 s hs rfl
      have hst : (Json.str s).truthy = true := by simp [Json.truthy, hs]
      have htrace : pageTrace fetch (n + 1) url params
          = ⟨url, params, fetch url params⟩ :: pageTrace fetch n s [] := by
        simp only [pageTrace, hcur]
      cases n with
      | zero =>
        rw [htrace] at hend
        simp [pageTrace, closesTrace, hcur] at hend
      | succ m =>
        have hne := pageTrace_ne_nil fetch m s []
        have hwf' : ∀ v ∈ pageTrace fetch (m + 1) s [],
            wellformedEnvelope v.resp = true := by
          intro v hv
          exact hwf v (by rw [htrace]; exact List.mem_cons_of_mem _ hv)
        have hend' : closesTrace (pageTrace fetch (m + 1) s []) = true := by
          rw [htrace, closesTrace_cons _ _ hne] at hend
          exact hend
        obtain ⟨IH1, IH2, IH3⟩ := ih s [] hwf' hend'
        have step : paginateFuel fetch (m + 1 + 1) url params
            = (paginateFuel fetch (m + 1) s []).map
                (fun rest => itemsOf (fetch url params) ++ rest) := by
          conv_lhs => rw [paginateFuel]
          rw [hext, hok]
          simp only [hst, if_true]
        refine ⟨?_, ?_, ?_⟩
        · rw [htrace, step, IH1]
          simp only [Option.map_some', concatItems, List.foldr_cons]
        · rw [htrace]; rfl
        · rw [htrace]
          refine List.chain'_cons'.mpr ⟨?_, IH3⟩
          intro y hy
          rw [IH2] at hy
          have hyy : y = ⟨s, [], fetch s []⟩ := by
            simpa using hy.symm
          subst hyy
          exact ⟨hcur, rfl, rfl⟩
    · have hcur : nextCursor (fetch url params) = none :=
        (nextCursor_of_ok _ _ hok).2 hfalse
      have htrace : pageTrace fetch (n + 1) url params
          = [⟨url, params, fetch url params⟩] := by
        simp only [pageTrace, hcur]
      refine ⟨?_, ?_, ?_⟩
      · rw [htrace]
        simp only [paginateFuel, hext, hok, hfalse, Bool.false_eq_true, if_false,
          concatItems, List.foldr_cons, List.foldr_nil, List.append_nil]
      · rw [htrace]; rfl
      · rw [htrace]; simp

/-- A concrete two-page server: the first page carries a `collection`
envelope with a `pagination.next_page` cursor to `"u2"`, the second a
`data` envelope with no cursor. -/
def fetchTwoPages : String → List (String × Json) → Json := fun u _ =>
  if u = "u2" then Json.obj [("data", Json.arr [Json.num 3])]
  else
    Json.obj [("collection", Json.arr [Json.num 1, Json.num 2]),
      ("pagination", Json.obj [("next_page", Json.str "u2")])]

/-- Witness for C1: the pagination theorem applied to the concrete
two-page run, with its well-formedness and termination hypotheses
discharged by evaluation. -/
theorem paginate_follows_cursors_witness :
    paginateFuel fetchTwoPages 2 "u1" [("count", Json.num 100)]
        = some (concatItems (pageTrace fetchTwoPages 2 "u1" [("count", Json.num 100)]))
    ∧ (pageTrace fetchTwoPages 2 "u1" [("count", Json.num 100)]).head?
        = some ⟨"u1", [("count", Json.num 100)], fetchTwoPages "u1" [("count", Json.num 100)]⟩
    ∧ List.Chain' (fun a b => nextCursor a.resp = some b.url ∧ b.params = []
        ∧ b.resp = fetchTwoPages b.url []) (pageTrace fetchTwoPages 2 "u1" [("count", Json.num 100)]) :=
  paginate_follows_cursors fetchTwoPages 2 "u1" [("count", Json.num 100)]
    (by decide) (by decide)

/-! ## `CalendlyService.get_json`

```python
while True:
    response = requests.get(url, headers=self.headers, params=params, timeout=30)
    if response.status_code == 429:
        wait = int(response.headers.get("Retry-After", 5))
        await asyncio.sleep(wait)
        continue
    response.raise_for_status()
    return response.json()
```

The HTTP transport is the out-of-scope collaborator: `http i` is the
response to the `i`-th issuance of the one fixed request (the loop always
re-issues the identical `url`/`params`).  The `Retry-After` header is
modelled already parsed (`none` when absent).  The unbounded retry loop
gets a fuel bound; the recorded list of sleeps witnesses the waits. -/

/-- One HTTP response: status code, parsed `Retry-After` header, JSON body. -/
structure HttpResponse where
  status : Nat
  retryAfter : Option Int
  body : Json

/-- The data carried by the `HTTPError` that `raise_for_status` raises:
status code, request URL, and response body. -/
structure HttpFailure where
  status : Nat
  url : String
  body : Json

/-- `response.raise_for_status()` raises exactly for 4xx and 5xx codes. -/
def raisesForStatus (s : Nat) : Bool := decide (400 ≤ s ∧ s < 600)

/-- The retry loop of `get_json`, from attempt `i` with `fuel` attempts
left: returns the list of sleeps performed and the final outcome, or
`none` if the loop is still retrying when the fuel runs out. -/
def get_json_aux (http : Nat → HttpResponse) (url : String) :
    Nat → Nat → Option (List Int × Except HttpFailure Json)
  | 0, _ => none
  | fuel + 1, i =>
    if (http i).status = 429 then
      (get_json_aux http url fuel (i + 1)).map
        (fun p => (((http i).retryAfter).getD 5 :: p.1, p.2))
    else if raisesForStatus (http i).status then
      some ([], .error ⟨(http i).status, url, (http i).body⟩)
    else
      some ([], .ok (http i).body)

/-- `CalendlyService.get_json` on a fixed request, fuel-bounded. -/
def get_json (http : Nat → HttpResponse) (url : String) (fuel : Nat) :
    Option (List Int × Except HttpFailure Json) :=
  get_json_aux http url fuel 0

/-- The retry loop from any start index: every attempt before the answer
saw a 429 and slept the `Retry-After` duration (default 5), and the first
non-429 attempt decides the outcome. -/
theorem get_json_aux_spec (http : Nat → HttpResponse) (url : String) :
    ∀ (fuel i : Nat) (waits : List Int) (res : Except HttpFailure Json),
    get_json_aux http url fuel i = some (waits, res) →
    (∀ j (hj : j < waits.length), (http (i + j)).status = 429
      ∧ waits.get ⟨j, hj⟩ = ((http (i + j)).retryAfter).getD 5)
    ∧ (http (i + waits.length)).status ≠ 429
    ∧ (raisesForStatus (http (i + waits.length)).status = false →
        res = .ok (http (i + waits.length)).body)
    ∧ (raisesForStatus (http (i + waits.length)).status = true →
        res = .error ⟨(http (i + waits.length)).status, url,
          (http (i + waits.length)).body⟩)
  | 0, i, waits, res, h => by simp [get_json_aux] at h
  | fuel + 1, i, waits, res, h => by
    by_cases h429 : (http i).status = 429
    · simp only [get_json_aux, h429, if_true] at h
      cases hrec : get_json_aux http url fuel (i + 1) with
      | none => rw [hrec] at h; simp at h
      | some p =>
        rw [hrec] at h
        obtain ⟨w2, res2⟩ := p
        simp only [Option.map_some', Option.some.injEq, Prod.mk.injEq] at h
        obtain ⟨hw, hres⟩ := h
        subst hw
        subst hres
        obtain ⟨ih1, ih2, ih3, ih4⟩ := get_json_aux_spec http url fuel (i + 1) w2 res2 hrec
        have hidx : ∀ t : Nat, i + (t + 1) = (i + 1) + t := by omega
        refine ⟨?_, ?_, ?_, ?_⟩
        · intro j hj
          cases j with
          | zero => exact ⟨by simpa using h429, rfl⟩
          | succ j2 =>
            have hj2 : j2 < w2.length := by simpa using hj
            constructor
            · rw [hidx j2]
              exact (ih1 j2 hj2).1
            · have hg : (((http i).retryAfter).getD 5 :: w2).get ⟨j2 + 1, hj⟩
                  = w2.get ⟨j2, hj2⟩ := rfl
              rw [hg, (ih1 j2 hj2).2, hidx j2]
        · simpa [List.length_cons, hidx w2.length] using ih2
        · intro hfalse
          rw [List.length_cons, hidx w2.length] at hfalse ⊢
          exact ih3 hfalse
        · intro htrue
          rw [List.length_cons, hidx w2.length] at htrue ⊢
          exact ih4 htrue
    · simp only [get_json_aux] at h
      rw [if_neg h429] at h
      by_cases hrs : raisesForStatus (http i).status = true
      · rw [if_pos hrs] at h
        simp only [Option.some.injEq, Prod.mk.injEq] at h
        obtain ⟨hw, hres⟩ := h
        subst hw
        subst hres
        refine ⟨?_, ?_, ?_, ?_⟩
        · intro j hj
          simp at hj
        · simpa using h429
        · intro hfalse
          simp only [List.length_nil, Nat.add_zero] at hfalse
          rw [hrs] at hfalse
          cases hfalse
        · intro _
          simp
      · rw [if_neg hrs] at h
        simp only [Option.some.injEq, Prod.mk.injEq] at h
        obtain ⟨hw, hres⟩ := h
        subst hw
        subst hres
        refine ⟨?_, ?_, ?_, ?_⟩
        · intro j hj
          simp at hj
        · simpa using h429
        · intro _
          simp
        · intro htrue
          simp only [List.length_nil, Nat.add_zero] at htrue
          rw [htrue] at hrs
          exact absurd rfl hrs

/-- The retry loop terminates once any attempt within fuel range returns a
non-429 status. -/
theorem get_json_aux_terminates (http : Nat → HttpResponse) (url : String) :
    ∀ (fuel i k : Nat), i ≤ k → k < i + fuel → (http k).status ≠ 429 →
    get_json_aux http url fuel i ≠ none
  | 0, i, k, _, hk, _ => by omega
  | fuel + 1, i, k, hik, hk, hs => by
    by_cases h429 : (http i).status = 429
    · have hik2 : i + 1 ≤ k := by
        rcases Nat.eq_or_lt_of_le hik with rfl | hlt
        · exact absurd h429 hs
        · omega
      have hrec := get_json_aux_terminates http url fuel (i + 1) k hik2 (by omega) hs
      simp only [get_json_aux, h429, if_true, ne_eq, Option.map_eq_none']
      exact hrec
    · simp only [get_json_aux]
      rw [if_neg h429]
      by_cases hrs : raisesForStatus (http i).status = true
      · rw [if_pos hrs]; exact Option.some_ne_none _
      · rw [if_neg hrs]; exact Option.some_ne_none _

/-- C2: when `get_json` completes, every attempt before the answer received
status 429 and slept the `Retry-After` duration (default 5 time-units when
the header is absent) before re-issuing the identical request; the first
non-429 response decides the outcome — its parsed body on a success status,
and otherwise a terminal failure carrying the status code, URL and response
body.  Moreover the loop does terminate once a non-429 response arrives
within the fuel bound. -/
theorem get_json_retries_on_429 :
    (∀ (http : Nat → HttpResponse) (url : String) (fuel : Nat)
        (waits : List Int) (res : Except HttpFailure Json),
      get_json http url fuel = some (waits, res) →
      (∀ j (hj : j < waits.length), (http j).status = 429
        ∧ waits.get ⟨j, hj⟩ = ((http j).retryAfter).getD 5)
      ∧ (http waits.length).status ≠ 429
      ∧ (raisesForStatus (http waits.length).status = false →
          res = .ok (http waits.length).body)
      ∧ (raisesForStatus (http waits.length).status = true →
          res = .error ⟨(http waits.length).status, url, (http waits.length).body⟩))
    ∧ (∀ (http : Nat → HttpResponse) (url : String) (k fuel : Nat),
        (http k).status ≠ 429 → k < fuel →
        get_json http url fuel ≠ none) := by
  constructor
  · intro http url fuel waits res h
    have := get_json_aux_spec http url fuel 0 waits res h
    simpa using this
  · intro http url k fuel hs hk
    exact get_json_aux_terminates http url fuel 0 k (Nat.zero_le _) (by omega) hs

/-- A concrete transport: the first attempt is rate-limited with
`Retry-After: 3`, the second succeeds with status 200. -/
def httpRateLimited : Nat → HttpResponse := fun i =>
  if i = 0 then ⟨429, some 3, Json.null⟩ else ⟨200, none, Json.str "payload"⟩

/-- Witness for C2: the retry theorem applied to the concrete rate-limited
transport; one 429 attempt with a 3-unit sleep, then the parsed body of
the 200 response. -/
theorem get_json_retries_on_429_witness :
    (httpRateLimited 0).status = 429
    ∧ ([(3 : Int)].get ⟨0, by decide⟩ = ((httpRateLimited 0).retryAfter).getD 5)
    ∧ (httpRateLimited 1).status ≠ 429
    ∧ (Except.ok (Json.str "payload") : Except HttpFailure Json)
        = Except.ok (httpRateLimited 1).body
    ∧ get_json httpRateLimited "https://api.calendly.com/users/me" 3 ≠ none := by
  have h := get_json_retries_on_429.1 httpRateLimited
    "https://api.calendly.com/users/me" 3 [(3 : Int)] (.ok (Json.str "payload")) rfl
  refine ⟨(h.1 0 (by decide)).1, (h.1 0 (by decide)).2, ?_, ?_, ?_⟩
  · simpa using h.2.1
  · simpa using h.2.2.1 (by decide)
  · exact get_json_retries_on_429.2 httpRateLimited
      "https://api.calendly.com/users/me" 1 3 (by decide) (by decide)

/-! ## `CalendlyService.download_all_data`

The HTTP calls of the six download steps are abstracted into an `ApiData`
oracle (`get_json`/`paginate` outcomes per request); file writes are
irrelevant to the claims and elided.  Helper-level `TypeError`s (a
non-dict `resource`, a non-string scheduled-event URI) are modelled as
`.error ()` and mapped by the downloader's outer `except` to an error
result, exactly as the raised exception would be. -/

/-- Python `a or b` on JSON values. -/
def jsonOr (a b : Json) : Json := if a.truthy then a else b

/-- `d[k] = v` on a JSON dict (non-dicts unchanged, mirroring the
`isinstance(event, dict)` guard at the call site). -/
def Json.setKey (j : Json) (k : String) (v : Json) : Json :=
  match j with
  | Json.obj fs =>
    if fs.any (fun kv => kv.1 == k) then
      Json.obj (fs.map (fun kv => if kv.1 == k then (k, v) else kv))
    else Json.obj (fs ++ [(k, v)])
  | other => other

/-- `CalendlyService._get_event_name`. -/
def get_event_name (event_type : Json) : Except Unit Json :=
  match event_type with
  | Json.obj _ =>
    match event_type.lookup "resource" with
    | some r =>
      match r with
      | Json.obj rfs => .ok (((Json.obj rfs).lookup "name").getD (Json.str "Unknown"))
      | _ => .error ()
    | none => .ok ((event_type.lookup "name").getD (Json.str "Unknown"))
  | _ => .ok (Json.str "Unknown")

/-- `CalendlyService._get_event_type_uri`. -/
def get_event_type_uri (event_type : Json) : Except Unit Json :=
  match event_type with
  | Json.obj _ =>
    match event_type.lookup "resource" with
    | some r =>
      match r with
      | Json.obj rfs => .ok (((Json.obj rfs).lookup "uri").getD Json.null)
      | _ => .error ()
    | none => .ok ((event_type.lookup "uri").getD Json.null)
  | _ => .ok Json.null

/-- `CalendlyService._get_scheduled_event_uri`. -/
def get_scheduled_event_uri (event : Json) : Except Unit Json :=
  match event with
  | Json.obj _ =>
    match event.lookup "resource" with
    | some r =>
      match r with
      | Json.obj rfs =>
        .ok (jsonOr (((Json.obj rfs).lookup "uri").getD Json.null)
          (((Json.obj rfs).lookup "id").getD Json.null))
      | _ => .error ()
    | none =>
      .ok (jsonOr ((event.lookup "uri").getD Json.null)
        ((event.lookup "id").getD Json.null))
  | _ => .ok Json.null

/-- The `or`-chain fallback of the organization-URI extraction:
`me.get("current_organization") or me.get("data", {}).get("current_organization") or me.get("organization")`
(raises when `me["data"]` is present and not a dict). -/
def fallbackOrg (me : Json) : Except Unit Json :=
  if ((me.lookup "current_organization").getD Json.null).truthy then
    .ok ((me.lookup "current_organization").getD Json.null)
  else
    match (me.lookup "data").getD (Json.obj []) with
    | Json.obj dfs =>
      if (((Json.obj dfs).lookup "current_organization").getD Json.null).truthy then
        .ok (((Json.obj dfs).lookup "current_organization").getD Json.null)
      else .ok ((me.lookup "organization").getD Json.null)
    | _ => .error ()

/-- The organization-URI extraction of `download_all_data`:
`me["resource"]["current_organization"]` inside a `try`, any failure
falling back to the `or`-chain; a non-dict `me` raises outside the `try`. -/
def extractOrgUri (me : Json) : Except Unit Json :=
  match me with
  | Json.obj _ =>
    match me.lookup "resource" with
    | some r =>
      match r with
      | Json.obj rfs =>
        match (Json.obj rfs).lookup "current_organization" with
        | some v => .ok v
        | none => fallbackOrg me
      | _ => fallbackOrg me
    | none => fallbackOrg me
  | _ => .error ()

/-- The outcomes the HTTP layer hands the downloader: the `/users/me`
response, the three organization-level paginated fetches, and the
per-event-type (`scheduled`) and per-event (`invitees`) paginated fetches;
`.error` is a raised exception carrying its message. -/
structure ApiData where
  me : Except String Json
  org_memberships : Except String (List Json)
  users : Except String (List Json)
  event_types : Except String (List Json)
  scheduled : Json → Except String (List Json)
  invitees : String → Except String (List Json)

/-- The diagnostic count of event types named "Cleverly Introduction". -/
def cleverlyCount : List Json → Except Unit Int
  | [] => .ok 0
  | et :: rest => do
    let n ← get_event_name et
    let tail ← cleverlyCount rest
    .ok ((if n.beq (Json.str "Cleverly Introduction") then 1 else 0) + tail)

/-- Tag a scheduled event with its owning event type, as step 5 does. -/
def tagEvent (name uri ev : Json) : Json :=
  (ev.setKey "_event_type_name" name).setKey "_event_type_uri" uri

/-- `s.split('/')[-1]`: the suffix after the last slash (kernel-reducible
equivalent of a split-and-take-last). -/
def lastSeg (s : String) : String :=
  String.mk ((s.data.reverse.takeWhile (fun c => c != Char.ofNat 47)).reverse)

/-- `event_uri.split('/')[-1] if '/' in event_uri else event_uri`. -/
def eventIdOfUri (s : String) : String :=
  if s.data.contains (Char.ofNat 47) then lastSeg s else s

/-- Step 5: for every event type with a truthy URI, fetch its scheduled
events (a per-event-type fetch failure is logged and skipped), tag each
with the owning event type, and accumulate in order. -/
def collectScheduled (api : ApiData) : List Json → Except Unit (List Json)
  | [] => .ok []
  | et :: rest => do
    let uri ← get_event_type_uri et
    let name ← get_event_name et
    let tail ← collectScheduled api rest
    if uri.truthy then
      match api.scheduled uri with
      | .error _ => .ok tail
      | .ok evs => .ok (evs.map (fun ev => tagEvent name uri ev) ++ tail)
    else .ok tail

/-- Step 6: for every scheduled event with a truthy URI, fetch its
invitees keyed by the trailing URI path segment (a per-event failure is
logged and skipped) and count them. -/
def countInvitees (api : ApiData) : List Json → Except Unit Nat
  | [] => .ok 0
  | ev :: rest => do
    let uri ← get_scheduled_event_uri ev
    let tail ← countInvitees api rest
    if uri.truthy then
      match uri with
      | Json.str s =>
        match api.invitees (eventIdOfUri s) with
        | .error _ => .ok tail
        | .ok invs => .ok (invs.length + tail)
      | _ => .error ()
    else .ok tail

/-- The `{"error": msg}` result object. -/
def errObj (msg : String) : Json := Json.obj [("error", Json.str msg)]

/-- `CalendlyService.download_all_data` over the `ApiData` oracle. -/
def download_all_data (api : ApiData) : Json :=
  match api.me with
  | .error e => errObj ("Failed to download data: " ++ e)
  | .ok me =>
    match extractOrgUri me with
    | .error _ => errObj "Failed to download data: TypeError"
    | .ok org =>
      if !org.truthy then errObj "Could not find organization URI in user data"
      else
        match api.org_memberships with
        | .error e => errObj ("Failed to download data: " ++ e)
        | .ok _oms =>
          match api.users with
          | .error e => errObj ("Failed to download data: " ++ e)
          | .ok _us =>
            match api.event_types with
            | .error e => errObj ("Failed to download data: " ++ e)
            | .ok ets =>
              match cleverlyCount ets with
              | .error _ => errObj "Failed to download data: TypeError"
              | .ok cc =>
                match collectScheduled api ets with
                | .error _ => errObj "Failed to download data: TypeError"
                | .ok allsch =>
                  match countInvitees api allsch with
                  | .error _ => errObj "Failed to download data: TypeError"
                  | .ok icount =>
                    Json.obj [("success", Json.bool true),
                      ("message", Json.str "Data downloaded successfully"),
                      ("summary", Json.obj [
                        ("event_types", Json.num ets.length),
                        ("cleverly_introduction_events", Json.num cc),
                        ("scheduled_events", Json.num allsch.length),
                        ("invitees", Json.num icount)])]

/-- C4: the organization identifier is extracted by trying
`resource.current_organization` first, any failure of that path falling
back to the `or`-chain `current_organization`, then
`data.current_organization`, then `organization`; a falsy organization
value aborts the run with the dedicated error; and every run result is an
error object or a success object carrying a summary with the counts of
event types, scheduled events and invitees — never both. -/
theorem download_result_shape :
    (∀ fs rfs v, (Json.obj fs).lookup "resource" = some (Json.obj rfs) →
        (Json.obj rfs).lookup "current_organization" = some v →
        extractOrgUri (Json.obj fs) = .ok v)
    ∧ (∀ fs, (Json.obj fs).lookup "resource" = none →
        extractOrgUri (Json.obj fs) = fallbackOrg (Json.obj fs))
    ∧ (∀ fs rfs, (Json.obj fs).lookup "resource" = some (Json.obj rfs) →
        (Json.obj rfs).lookup "current_organization" = none →
        extractOrgUri (Json.obj fs) = fallbackOrg (Json.obj fs))
    ∧ (∀ fs v, (Json.obj fs).lookup "current_organization" = some v →
        v.truthy = true → fallbackOrg (Json.obj fs) = .ok v)
    ∧ (∀ fs dfs v,
        (((Json.obj fs).lookup "current_organization").getD Json.null).truthy = false →
        ((Json.obj fs).lookup "data").getD (Json.obj []) = Json.obj dfs →
        (Json.obj dfs).lookup "current_organization" = some v → v.truthy = true →
        fallbackOrg (Json.obj fs) = .ok v)
    ∧ (∀ fs dfs,
        (((Json.obj fs).lookup "current_organization").getD Json.null).truthy = false →
        ((Json.obj fs).lookup "data").getD (Json.obj []) = Json.obj dfs →
        (((Json.obj dfs).lookup "current_organization").getD Json.null).truthy = false →
        fallbackOrg (Json.obj fs)
          = .ok (((Json.obj fs).lookup "organization").getD Json.null))
    ∧ (∀ api me org, api.me = .ok me → extractOrgUri me = .ok org →
        org.truthy = false →
        download_all_data api = errObj "Could not find organization URI in user data")
    ∧ (∀ api, ((download_all_data api).lookup "error").isSome = true
          ∧ (download_all_data api).lookup "summary" = none
          ∧ (download_all_data api).lookup "success" = none
        ∨ (download_all_data api).lookup "error" = none
          ∧ (download_all_data api).lookup "success" = some (Json.bool true)
          ∧ ((download_all_data api).lookup "summary").isSome = true)
    ∧ (∀ api me org ets cc allsch icount,
        api.me = .ok me → extractOrgUri me = .ok org → org.truthy = true →
        (∃ x, api.org_memberships = .ok x) → (∃ x, api.users = .ok x) →
        api.event_types = .ok ets → cleverlyCount ets = .ok cc →
        collectScheduled api ets = .ok allsch →
        countInvitees api allsch = .ok icount →
        (download_all_data api).lookup "summary" = some (Json.obj [
          ("event_types", Json.num ets.length),
          ("cleverly_introduction_events", Json.num cc),
          ("scheduled_events", Json.num allsch.length),
          ("invitees", Json.num icount)])) := by
  refine ⟨?_, ?_, ?_, ?_, ?_, ?_, ?_, ?_, ?_⟩
  · intro fs rfs v h1 h2
    simp [extractOrgUri, h1, h2]
  · intro fs h
    simp [extractOrgUri, h]
  · intro fs rfs h1 h2
    simp [extractOrgUri, h1, h2]
  · intro fs v h ht
    simp [fallbackOrg, h, ht]
  · intro fs dfs v hB hd hv htv
    simp [fallbackOrg, hB, hd, hv, htv]
  · intro fs dfs hB hd hC
    simp [fallbackOrg, hB, hd, hC]
  · intro api me org hme hex htr
    simp [download_all_data, hme, hex, htr]
  · intro api
    unfold download_all_data
    repeat' split
    all_goals first
      | exact Or.inl ⟨rfl, rfl, rfl⟩
      | exact Or.inr ⟨rfl, rfl, rfl⟩
  · intro api me org ets cc allsch icount hme hex htr homs hus hets hcc hcol hcnt
    obtain ⟨oms, homs⟩ := homs
    obtain ⟨us, hus⟩ := hus
    simp only [download_all_data, hme, hex, htr, homs, hus, hets, hcc, hcol, hcnt,
      Bool.not_true, Bool.false_eq_true, if_false, Json.lookup]
    rfl

/-- A concrete successful run: one cohort event type, one scheduled event,
one invitee. -/
def apiSample : ApiData where
  me := .ok (Json.obj [("resource",
    Json.obj [("current_organization", Json.str "org1")])])
  org_memberships := .ok []
  users := .ok []
  event_types := .ok [Json.obj [("uri", Json.str "et1"),
    ("name", Json.str "Cleverly Introduction")]]
  scheduled := fun _ => .ok [Json.obj [("uri", Json.str "se1")]]
  invitees := fun _ => .ok [Json.obj [("uri", Json.str "i1")]]

/-- A run whose account profile carries no organization identifier on any
of the fallback paths. -/
def apiNoOrg : ApiData where
  me := .ok (Json.obj [("resource", Json.obj [("name", Json.str "x")])])
  org_memberships := .ok []
  users := .ok []
  event_types := .ok []
  scheduled := fun _ => .ok []
  invitees := fun _ => .ok []

/-- Witness for C4: the primary extraction path, the success summary with
its three counts, and the dedicated error on a missing organization,
evaluated on the concrete oracles. -/
theorem download_result_shape_witness :
    extractOrgUri (Json.obj [("resource",
        Json.obj [("current_organization", Json.str "org1")])])
      = .ok (Json.str "org1")
    ∧ (download_all_data apiSample).lookup "summary"
      = some (Json.obj [("event_types", Json.num 1),
          ("cleverly_introduction_events", Json.num 1),
          ("scheduled_events", Json.num 1), ("invitees", Json.num 1)])
    ∧ download_all_data apiNoOrg
      = errObj "Could not find organization URI in user data" := by
  refine ⟨?_, ?_, ?_⟩
  · exact download_result_shape.1 _ _ _ rfl rfl
  · exact download_result_shape.2.2.2.2.2.2.2.2 apiSample _ _ _ _ _ _
      rfl rfl (by decide) ⟨[], rfl⟩ ⟨[], rfl⟩ rfl rfl rfl rfl
  · exact download_result_shape.2.2.2.2.2.2.1 apiNoOrg _ _ rfl rfl (by decide)

/-! ## `DataProcessor` (`data_processor.py`)

The on-disk state is a `Store` (`event_types.json`, `scheduled_events.json`,
the `invitees/` directory); `load_data` produces the processor state or
`none` where the Python returns `False` (missing `event_types.json`, or an
exception inside its `try`).  The pandas DataFrame becomes a `Frame`: an
explicit column-name list plus one `Row` per record, with `Option` fields
for cells (`none` = pandas `NaN`/`None`).  Cells are modelled for
string-or-null JSON values, the only values the analytics claims concern;
datetime columns are handled separately by the temporal model below. -/

/-- `pat` occurs as a prefix of `l`. -/
def listPrefixMatch : List Char → List Char → Bool
  | [], _ => true
  | _ :: _, [] => false
  | a :: as_, b :: bs => a == b && listPrefixMatch as_ bs

/-- `pat` occurs as a contiguous run inside `l` (Python `pat in s`). -/
def listInfixMatch (pat : List Char) : List Char → Bool
  | [] => listPrefixMatch pat []
  | b :: rest => listPrefixMatch pat (b :: rest) || listInfixMatch pat rest

/-- Python `pat in s` on strings. -/
def strContains (s pat : String) : Bool :=
  listInfixMatch pat.toList s.toList

/-- Python `s.lower()` (ASCII; kernel-reducible). -/
def pyLower (s : String) : String := String.mk (s.data.map Char.toLower)

/-- Python `s.strip()` (whitespace trim on both ends; kernel-reducible). -/
def pyStrip (s : String) : String :=
  String.mk
    (((s.data.dropWhile Char.isWhitespace).reverse.dropWhile
      Char.isWhitespace).reverse)

/-- A string-or-null table cell read with `.get(k, '')`: a missing key is
the empty string, a JSON `null` is a `NaN` cell. -/
def cellStrD (j : Json) (k : String) : Option String :=
  match j.lookup k with
  | none => some ""
  | some Json.null => none
  | some (Json.str s) => some s
  | some _ => none

/-- One analytic-table row (the cells the aggregation claims read). -/
structure Row where
  invitee_id : Option String := none
  invitee_email : Option String := none
  status : Option String := none
  internal_note : Option String := none
  interested_service : Option String := none
  discovery_channel : Option String := none
  website_url : Option String := none
  phone_number : Option String := none
  linkedin_url : Option String := none

/-- The five typed fields the question/answer keyword extraction can set. -/
inductive QaField where
  | interested_service
  | discovery_channel
  | website_url
  | phone_number
  | linkedin_url
deriving DecidableEq

/-- The keyword routing of one question text (already lowercased by the
caller): the `if`/`elif` chain of `_create_dataframe_from_invitees`. -/
def qaFieldOf (question : String) : Option QaField :=
  let q := pyLower question
  if strContains q "service" && strContains q "interested" then
    some .interested_service
  else if strContains q "how did you find" || strContains q "find us" then
    some .discovery_channel
  else if strContains q "website" then some .website_url
  else if strContains q "phone" then some .phone_number
  else if strContains q "linkedin" && strContains q "profile" then
    some .linkedin_url
  else none

/-- `record[field] = answer`. -/
def setQaField (r : Row) (f : QaField) (answer : String) : Row :=
  match f with
  | .interested_service => { r with interested_service := some answer }
  | .discovery_channel => { r with discovery_channel := some answer }
  | .website_url => { r with website_url := some answer }
  | .phone_number => { r with phone_number := some answer }
  | .linkedin_url => { r with linkedin_url := some answer }

/-- Read an extracted field back out of a row. -/
def getQaField (r : Row) (f : QaField) : Option String :=
  match f with
  | .interested_service => r.interested_service
  | .discovery_channel => r.discovery_channel
  | .website_url => r.website_url
  | .phone_number => r.phone_number
  | .linkedin_url => r.linkedin_url

/-- Process one `questions_and_answers` pair. -/
def applyQa (r : Row) (qa : Json) : Row :=
  match qaFieldOf ((qa.lookup "question").getD (Json.str "")).asStr with
  | some f => setQaField r f ((qa.lookup "answer").getD (Json.str "")).asStr
  | none => r

/-- The question/answer extraction loop over one invitee's pairs. -/
def extractQaFields (r : Row) (qas : List Json) : Row := qas.foldl applyQa r

/-- The `internal_note` cell of a row: the first cohort event type whose
`uri` equals the row's `event_type` URI contributes
`get('internal_note', 'No Internal Note')`; no match yields `"Unknown"`. -/
def noteFromEventTypes (cleverly : List Json) (etUri : Json) : Option String :=
  match cleverly.find? (fun et => ((et.lookup "uri").getD Json.null).beq etUri) with
  | some et =>
    match et.lookup "internal_note" with
    | none => some "No Internal Note"
    | some (Json.str s) => some s
    | some _ => none
  | none => some "Unknown"

/-- One row of `_create_dataframe_from_invitees`, from the pair
(`invitee_data`, attached `event_data`). -/
def rowFromInvitee (cleverly : List Json) (inv : Json × Json) : Row :=
  let base : Row :=
    { invitee_id := cellStrD inv.1 "uri"
      invitee_email := cellStrD inv.1 "email"
      status := cellStrD inv.1 "status"
      internal_note := noteFromEventTypes cleverly
        ((inv.2.lookup "event_type").getD (Json.str "")) }
  extractQaFields base
    (match (inv.1.lookup "questions_and_answers").getD (Json.arr []) with
     | Json.arr qas => qas
     | _ => [])

/-- The analytic table: pandas column inventory plus rows. -/
structure Frame where
  cols : List String
  rows : List Row

/-- The extracted-field columns present in a record set (pandas only
creates a column if some record carries the key). -/
def extractedCols (rows : List Row) : List String :=
  (if rows.any (fun r => r.interested_service.isSome) then ["interested_service"] else [])
  ++ (if rows.any (fun r => r.discovery_channel.isSome) then ["discovery_channel"] else [])
  ++ (if rows.any (fun r => r.website_url.isSome) then ["website_url"] else [])
  ++ (if rows.any (fun r => r.phone_number.isSome) then ["phone_number"] else [])
  ++ (if rows.any (fun r => r.linkedin_url.isSome) then ["linkedin_url"] else [])

/-- `DataProcessor._create_dataframe_from_invitees`. -/
def create_dataframe_from_invitees (cleverly : List Json)
    (invitees : List (Json × Json)) : Frame :=
  let rows := invitees.map (rowFromInvitee cleverly)
  ⟨["invitee_id", "event_id", "event_type_uri", "internal_note", "invitee_name",
    "invitee_email", "status", "created_at", "updated_at",
    "scheduled_event_created_at", "scheduled_event_start_time",
    "scheduled_event_end_time", "questions_and_answers", "tracking"]
    ++ extractedCols rows, rows⟩

/-- One row of `_create_dataframe_from_scheduled_events`. -/
def rowFromScheduledEvent (cleverly : List Json) (event : Json) : Row :=
  { status := cellStrD event "status"
    internal_note := noteFromEventTypes cleverly
      ((event.lookup "event_type").getD (Json.str "")) }

/-- `DataProcessor._create_dataframe_from_scheduled_events`. -/
def create_dataframe_from_scheduled_events (cleverly : List Json)
    (events : List Json) : Frame :=
  ⟨["event_id", "event_type_uri", "internal_note", "status",
    "scheduled_event_created_at", "scheduled_event_start_time",
    "scheduled_event_end_time", "name", "location"],
   events.map (rowFromScheduledEvent cleverly)⟩

/-- One row of `_create_dataframe_from_event_types` (note: no `status`,
`invitee_email` or `invitee_id` column at this tier). -/
def rowFromEventType (et : Json) : Row :=
  { internal_note :=
      match et.lookup "internal_note" with
      | none => some "No Internal Note"
      | some (Json.str s) => some s
      | some _ => none }

/-- `DataProcessor._create_dataframe_from_event_types`. -/
def create_dataframe_from_event_types (cleverly : List Json) : Frame :=
  ⟨["event_type_uri", "name", "internal_note", "slug", "scheduling_url",
    "duration", "active", "created_at", "updated_at", "booking_method",
    "color", "kind", "pooling_type", "custom_questions_count"],
   cleverly.map rowFromEventType⟩

/-- The processor state after `load_data`. -/
structure DPState where
  cleverly_events : List Json
  cleverly_scheduled_events : List Json
  invitees_data : List (Json × Json)

/-- `DataProcessor.create_analytics_dataframe`: invitee rows when any
invitee data is loaded, else scheduled-event rows, else event-type rows,
else an empty table. -/
def create_analytics_dataframe (st : DPState) : Frame :=
  if !st.invitees_data.isEmpty then
    create_dataframe_from_invitees st.cleverly_events st.invitees_data
  else if !st.cleverly_scheduled_events.isEmpty then
    create_dataframe_from_scheduled_events st.cleverly_events
      st.cleverly_scheduled_events
  else if !st.cleverly_events.isEmpty then
    create_dataframe_from_event_types st.cleverly_events
  else ⟨[], []⟩

/-- The persisted files `load_data` reads: the two list files (absent =
`none`), the `invitees/` directory flag, and the per-event invitee files
keyed by event id. -/
structure Store where
  event_types : Option (List Json)
  scheduled_events : Option (List Json)
  invitees_dir : Bool
  invitees : String → Option (List Json)

/-- The cohort scan of `load_data`: unwrap an optional `resource`
envelope, keep event types named "Cleverly Introduction", collecting their
`uri` values and unwrapped objects; a non-object record or a matching
record without `uri` raises (`load_data` returns `False`). -/
def cohortFilter : List Json → Option (List Json × List Json)
  | [] => some ([], [])
  | e :: rest =>
    match e with
    | Json.obj _ =>
      match (e.lookup "resource").getD e with
      | Json.obj edfs =>
        if ((Json.obj edfs).lookup "name").getD (Json.str "")
            |>.beq (Json.str "Cleverly Introduction") then
          match (Json.obj edfs).lookup "uri" with
          | some uri =>
            (cohortFilter rest).map
              (fun p => (uri :: p.1, Json.obj edfs :: p.2))
          | none => none
        else cohortFilter rest
      | _ => none
    | _ => none

/-- The scheduled-event scan of `load_data`: unwrap an optional `resource`
envelope and keep events whose `event_type` URI is in the cohort, or whose
`_event_type_name` tag names the cohort. -/
def scheduledFilter (uris : List Json) : List Json → Option (List Json)
  | [] => some []
  | ev :: rest =>
    match ev with
    | Json.obj _ =>
      match (ev.lookup "resource").getD ev with
      | Json.obj edfs =>
        (scheduledFilter uris rest).map (fun tail =>
          if uris.any (fun u =>
                u.beq (((Json.obj edfs).lookup "event_type").getD Json.null))
              || ((ev.lookup "_event_type_name").getD (Json.str "")
                  |>.beq (Json.str "Cleverly Introduction")) then
            Json.obj edfs :: tail
          else tail)
      | _ => none
    | _ => none

/-- The invitee-file name for a retained event:
`event_uri.split('/')[-1] if event_uri else event.get('id', '')`; a truthy
non-string URI raises. -/
def invFileId (event : Json) : Option String :=
  match (event.lookup "uri").getD (Json.str "") with
  | Json.str s =>
    if s ≠ "" then some (lastSeg s)
    else some (((event.lookup "id").getD (Json.str "")).asStr)
  | v =>
    if v.truthy then none
    else some (((event.lookup "id").getD (Json.str "")).asStr)

/-- `DataProcessor.load_invitees_data` over the retained events: flatten
each existing per-event invitee file, unwrapping an optional `resource`
envelope and attaching the parent event (`invitee_data['event_data']`). -/
def loadInvitees (store : Store) : List Json → Option (List (Json × Json))
  | [] => some []
  | ev :: rest => do
    let id ← invFileId ev
    let tail ← loadInvitees store rest
    match store.invitees id with
    | none => some tail
    | some invs =>
      some ((invs.map (fun inv => ((inv.lookup "resource").getD inv, ev))) ++ tail)

/-- `DataProcessor.load_data`: `none` where the Python returns `False`
(a missing `event_types.json`, or an exception inside the `try`). -/
def load_data (store : Store) : Option DPState := do
  let ets ← store.event_types
  let p ← cohortFilter ets
  let sched ← match store.scheduled_events with
    | none => some []
    | some evs => scheduledFilter p.1 evs
  let invs ← if store.invitees_dir then loadInvitees store sched else some []
  some ⟨p.2, sched, invs⟩

/-! ## `AnalyticsService`: summary metrics and per-cohort keys -/

/-- Distinct values in first-occurrence order (pandas `unique()`). -/
def dedupStr (xs : List String) : List String :=
  xs.foldl (fun acc x => if acc.contains x then acc else acc ++ [x]) []

/-- pandas `value_counts().to_dict()` of a string series, as key/count
pairs (key set and counts; the dict's ordering is irrelevant to the
claims). -/
def valueCounts (xs : List String) : List (String × Nat) :=
  (dedupStr xs).map (fun k => (k, xs.count k))

/-- The `internal_note_distribution` of `_generate_summary_metrics`:
drop `NaN` cells, drop values that strip to the empty string, count. -/
def internal_note_distribution (f : Frame) : List (String × Nat) :=
  if f.cols.contains "internal_note" then
    valueCounts ((f.rows.filterMap Row.internal_note).filter
      (fun s => pyStrip s != ""))
  else []

/-- The key set of `_analyze_by_internal_note`: distinct non-`NaN`
`internal_note` values that do not strip to the empty string (each key maps
to the per-cohort breakdown entry built for it). -/
def internal_notes_analysis_keys (f : Frame) : List String :=
  if f.cols.contains "internal_note" then
    (dedupStr (f.rows.filterMap Row.internal_note)).filter
      (fun s => pyStrip s != "")
  else []

/-- `summary.total_events`: the row count of the analytic table. -/
def summary_total_events (f : Frame) : Nat := f.rows.length

/-- `summary.total_invitees`: distinct non-`NaN` `invitee_email` values,
falling back to `invitee_id`, else 0. -/
def summary_total_invitees (f : Frame) : Nat :=
  if f.cols.contains "invitee_email" then
    (dedupStr (f.rows.filterMap Row.invitee_email)).length
  else if f.cols.contains "invitee_id" then
    (dedupStr (f.rows.filterMap Row.invitee_id)).length
  else 0

/-- C5: `create_analytics_dataframe` chooses the richest available source:
one row per loaded invitee when invitee data is non-empty, else one row
per retained scheduled event, else one row per cohort event type, else an
empty table; and when `scheduled_events.json` is absent, a successful load
yields no scheduled events and no invitees, so `total_events` is the
cohort event-type count. -/
theorem create_dataframe_tier_fallback :
    (∀ st : DPState, st.invitees_data ≠ [] →
      create_analytics_dataframe st
          = create_dataframe_from_invitees st.cleverly_events st.invitees_data
        ∧ (create_analytics_dataframe st).rows.length = st.invitees_data.length)
    ∧ (∀ st : DPState, st.invitees_data = [] →
        st.cleverly_scheduled_events ≠ [] →
      create_analytics_dataframe st
          = create_dataframe_from_scheduled_events st.cleverly_events
              st.cleverly_scheduled_events
        ∧ (create_analytics_dataframe st).rows.length
            = st.cleverly_scheduled_events.length)
    ∧ (∀ st : DPState, st.invitees_data = [] →
        st.cleverly_scheduled_events = [] → st.cleverly_events ≠ [] →
      create_analytics_dataframe st
          = create_dataframe_from_event_types st.cleverly_events
        ∧ (create_analytics_dataframe st).rows.length
            = st.cleverly_events.length)
    ∧ (∀ st : DPState, st.invitees_data = [] →
        st.cleverly_scheduled_events = [] → st.cleverly_events = [] →
      (create_analytics_dataframe st).rows = [])
    ∧ (∀ (store : Store) (ets : List Json) (st : DPState),
        store.scheduled_events = none → store.event_types = some ets →
        load_data store = some st →
        st.cleverly_scheduled_events = [] ∧ st.invitees_data = []
        ∧ (∃ uris, cohortFilter ets = some (uris, st.cleverly_events))
        ∧ summary_total_events (create_analytics_dataframe st)
            = st.cleverly_events.length) := by
  refine ⟨?_, ?_, ?_, ?_, ?_⟩
  · intro st h
    have hne : st.invitees_data.isEmpty = false := by
      simpa [List.isEmpty_iff] using h
    constructor
    · simp [create_analytics_dataframe, hne]
    · simp [create_analytics_dataframe, hne, create_dataframe_from_invitees]
  · intro st h1 h2
    have he1 : st.invitees_data.isEmpty = true := by simpa [List.isEmpty_iff] using h1
    have hne : st.cleverly_scheduled_events.isEmpty = false := by
      simpa [List.isEmpty_iff] using h2
    constructor
    · simp [create_analytics_dataframe, he1, hne]
    · simp [create_analytics_dataframe, he1, hne,
        create_dataframe_from_scheduled_events]
  · intro st h1 h2 h3
    have he1 : st.invitees_data.isEmpty = true := by simpa [List.isEmpty_iff] using h1
    have he2 : st.cleverly_scheduled_events.isEmpty = true := by
      simpa [List.isEmpty_iff] using h2
    have hne : st.cleverly_events.isEmpty = false := by
      simpa [List.isEmpty_iff] using h3
    constructor
    · simp [create_analytics_dataframe, he1, he2, hne]
    · simp [create_analytics_dataframe, he1, he2, hne,
        create_dataframe_from_event_types]
  · intro st h1 h2 h3
    simp [create_analytics_dataframe, h1, h2, h3]
  · intro store ets st hsched hets hld
    unfold load_data at hld
    rw [hets] at hld
    simp only [Option.bind_eq_bind, Option.some_bind] at hld
    cases hc : cohortFilter ets with
    | none => rw [hc] at hld; simp at hld
    | some p =>
      rw [hc] at hld
      simp only [Option.some_bind] at hld
      rw [hsched] at hld
      simp only [Option.some_bind] at hld
      have hst : st = ⟨p.2, [], []⟩ := by
        cases hdir : store.invitees_dir with
        | false =>
          rw [hdir] at hld
          simp only [Bool.false_eq_true, if_false, Option.some.injEq] at hld
          exact hld.symm
        | true =>
          rw [hdir] at hld
          simp only [if_true, loadInvitees, Option.some_bind,
            Option.some.injEq] at hld
          exact hld.symm
      subst hst
      refine ⟨rfl, rfl, ⟨p.1, by simp⟩, ?_⟩
      by_cases hev : p.2 = []
      · simp [create_analytics_dataframe, summary_total_events, hev]
      · have hne : p.2.isEmpty = false := by simpa [List.isEmpty_iff] using hev
        simp [create_analytics_dataframe, summary_total_events, hne,
          create_dataframe_from_event_types]

/-- A store with `event_types.json` present (one cohort entry) and
`scheduled_events.json` absent. -/
def storeNoScheduled : Store where
  event_types := some [Json.obj [("uri", Json.str "et1"),
    ("name", Json.str "Cleverly Introduction"),
    ("internal_note", Json.str "Plan A")]]
  scheduled_events := none
  invitees_dir := false
  invitees := fun _ => none

/-- Witness for C5: the invitee tier on one loaded invitee, the empty
tier, and the event-type fallback with `total_events = 1` when
`scheduled_events.json` is absent. -/
theorem create_dataframe_tier_fallback_witness :
    (create_analytics_dataframe
        ⟨[], [], [(Json.obj [("uri", Json.str "i1")], Json.obj [])]⟩).rows.length = 1
    ∧ (create_analytics_dataframe ⟨[], [], []⟩).rows = []
    ∧ summary_total_events (create_analytics_dataframe
        ⟨[Json.obj [("uri", Json.str "et1"),
            ("name", Json.str "Cleverly Introduction"),
            ("internal_note", Json.str "Plan A")]], [], []⟩) = 1 := by
  refine ⟨?_, ?_, ?_⟩
  · exact (create_dataframe_tier_fallback.1
      ⟨[], [], [(Json.obj [("uri", Json.str "i1")], Json.obj [])]⟩
      (List.cons_ne_nil _ _)).2
  · exact create_dataframe_tier_fallback.2.2.2.1 ⟨[], [], []⟩ rfl rfl rfl
  · exact (create_dataframe_tier_fallback.2.2.2.2 storeNoScheduled
      [Json.obj [("uri", Json.str "et1"),
        ("name", Json.str "Cleverly Introduction"),
        ("internal_note", Json.str "Plan A")]]
      ⟨[Json.obj [("uri", Json.str "et1"),
        ("name", Json.str "Cleverly Introduction"),
        ("internal_note", Json.str "Plan A")]], [], []⟩
      rfl rfl rfl).2.2.2

/-! ## End-to-end scenario B (C6)

`event_types.json` has the cohort entry with `internal_note` omitted
entirely; one active scheduled event references it; one active invitee
with a service question.  In the code, a matched event type without the
`internal_note` key yields the sentinel `'No Internal Note'`
(`event_type.get('internal_note', 'No Internal Note')`), which is a
non-blank string and therefore a cohort label. -/

/-- The scenario-B store. -/
def storeScenarioB : Store where
  event_types := some [Json.obj [("uri", Json.str "et1"),
    ("name", Json.str "Cleverly Introduction")]]
  scheduled_events := some [Json.obj [("uri", Json.str "se1"),
    ("event_type", Json.str "et1"), ("status", Json.str "active"),
    ("start_time", Json.str "2024-01-05T10:00:00Z"),
    ("created_at", Json.str "2024-01-01T00:00:00Z")]]
  invitees_dir := true
  invitees := fun id =>
    if id = "se1" then
      some [Json.obj [("uri", Json.str "i1"),
        ("email", Json.str "a@x.com"),
        ("status", Json.str "active"),
        ("questions_and_answers", Json.arr [Json.obj
          [("question", Json.str "What service are you interested in?"),
           ("answer", Json.str "SEO")]])]]
    else none

/-- The analytic table reconciled from the scenario-B store. -/
def scenarioBFrame : Frame :=
  match load_data storeScenarioB with
  | some st => create_analytics_dataframe st
  | none => ⟨[], []⟩

/-- C6 counterexample: on the scenario-B inputs the summary cohort-label
distribution is NOT empty — it is `{"No Internal Note": 1}` — and the
per-cohort breakdown keys are not empty either, refuting the claimed
empty distribution and empty breakdown. -/
theorem scenarioB_distribution_not_empty :
    internal_note_distribution scenarioBFrame = [("No Internal Note", 1)]
    ∧ internal_note_distribution scenarioBFrame ≠ []
    ∧ internal_notes_analysis_keys scenarioBFrame = ["No Internal Note"]
    ∧ internal_notes_analysis_keys scenarioBFrame ≠ [] := by
  refine ⟨by decide, by decide, by decide, by decide⟩

/-- C6 amended: with `internal_note` omitted from the cohort event type,
the row is labelled with the sentinel `"No Internal Note"`: the summary
cohort-label distribution is `{"No Internal Note": 1}`, the per-cohort
breakdown has exactly that key, and the summary totals remain 1. -/
theorem scenarioB_sentinel_label :
    internal_note_distribution scenarioBFrame = [("No Internal Note", 1)]
    ∧ internal_notes_analysis_keys scenarioBFrame = ["No Internal Note"]
    ∧ summary_total_events scenarioBFrame = 1
    ∧ summary_total_invitees scenarioBFrame = 1 := by
  refine ⟨by decide, by decide, by decide, by decide⟩

/-- Membership in the first-occurrence dedup is membership in the list. -/
theorem mem_dedupStr (xs : List String) (x : String) :
    x ∈ dedupStr xs ↔ x ∈ xs := by
  have main : ∀ (ys : List String) (acc : List String),
      x ∈ ys.foldl (fun acc y => if acc.contains y then acc else acc ++ [y]) acc
        ↔ x ∈ acc ∨ x ∈ ys := by
    intro ys
    induction ys with
    | nil => intro acc; simp
    | cons y ys ih =>
      intro acc
      rw [List.foldl_cons, ih]
      by_cases hy : acc.contains y
      · rw [if_pos hy]
        constructor
        · rintro (h | h)
          · exact Or.inl h
          · exact Or.inr (List.mem_cons_of_mem _ h)
        · rintro (h | h)
          · exact Or.inl h
          · rcases List.mem_cons.mp h with rfl | h2
            · exact Or.inl (by simpa using hy)
            · exact Or.inr h2
      · rw [if_neg hy]
        constructor
        · rintro (h | h)
          · rcases List.mem_append.mp h with h2 | h2
            · exact Or.inl h2
            · simp only [List.mem_singleton] at h2
              exact Or.inr (h2 ▸ List.mem_cons_self _ _)
          · exact Or.inr (List.mem_cons_of_mem _ h)
        · rintro (h | h)
          · exact Or.inl (List.mem_append.mpr (Or.inl h))
          · rcases List.mem_cons.mp h with rfl | h2
            · exact Or.inl (List.mem_append.mpr (Or.inr (by simp)))
            · exact Or.inr h2
  unfold dedupStr
  rw [main]
  simp

/-- C7: `internal_note` cells that are null (`None`/`NaN`), the empty
string, or whitespace-only are excluded from the summary cohort-label
distribution and never appear as keys of the per-cohort breakdown: every
distribution key and every breakdown key strips to a nonempty string, a
row with a null or blank note leaves the distribution unchanged, and a
string is a breakdown key exactly when it is a non-blank note of some
row of a table carrying the column. -/
theorem blank_notes_excluded :
    (∀ (f : Frame), ∀ k ∈ (internal_note_distribution f).map Prod.fst,
      pyStrip k ≠ "")
    ∧ (∀ (f : Frame), ∀ k ∈ internal_notes_analysis_keys f, pyStrip k ≠ "")
    ∧ (∀ (cols : List String) (rows : List Row) (r : Row),
        (r.internal_note = none
          ∨ ∃ s, r.internal_note = some s ∧ pyStrip s = "") →
        internal_note_distribution ⟨cols, r :: rows⟩
          = internal_note_distribution ⟨cols, rows⟩)
    ∧ (∀ (f : Frame) (k : String),
        k ∈ internal_notes_analysis_keys f
          ↔ (f.cols.contains "internal_note" = true
            ∧ some k ∈ f.rows.map Row.internal_note ∧ pyStrip k ≠ "")) := by
  refine ⟨?_, ?_, ?_, ?_⟩
  · intro f k hk
    unfold internal_note_distribution at hk
    by_cases hc : f.cols.contains "internal_note"
    · rw [if_pos hc] at hk
      unfold valueCounts at hk
      simp only [List.map_map] at hk
      have hk2 : k ∈ dedupStr ((f.rows.filterMap Row.internal_note).filter
          (fun s => pyStrip s != "")) := by
        simpa using hk
      have := (mem_dedupStr _ _).mp hk2
      have hmem := List.mem_filter.mp this
      simpa using hmem.2
    · rw [if_neg hc] at hk
      simp at hk
  · intro f k hk
    unfold internal_notes_analysis_keys at hk
    by_cases hc : f.cols.contains "internal_note"
    · rw [if_pos hc] at hk
      have hmem := List.mem_filter.mp hk
      simpa using hmem.2
    · rw [if_neg hc] at hk
      simp at hk
  · intro cols rows r hbad
    unfold internal_note_distribution
    by_cases hc : (Frame.mk cols (r :: rows)).cols.contains "internal_note"
    · rw [if_pos hc, if_pos hc]
      rcases hbad with hnone | ⟨s, hs, hstrip⟩
      · simp [List.filterMap_cons, hnone]
      · simp [List.filterMap_cons, hs, List.filter_cons, hstrip]
    · rw [if_neg hc, if_neg hc]
  · intro f k
    unfold internal_notes_analysis_keys
    by_cases hc : f.cols.contains "internal_note"
    · rw [if_pos hc]
      rw [List.mem_filter]
      rw [mem_dedupStr]
      rw [List.mem_filterMap]
      constructor
      · rintro ⟨⟨r, hr, hnote⟩, hp⟩
        refine ⟨hc, ?_, by simpa using hp⟩
        exact List.mem_map.mpr ⟨r, hr, hnote⟩
      · rintro ⟨_, hmem, hp⟩
        obtain ⟨r, hr, hnote⟩ := List.mem_map.mp hmem
        exact ⟨⟨r, hr, hnote⟩, by simpa using hp⟩
    · rw [if_neg hc]
      simp only [List.not_mem_nil, false_iff, not_and]
      intro hcc
      exact absurd hcc hc

/-- A row carrying only an `internal_note` cell. -/
def rowWithNote (n : Option String) : Row := { internal_note := n }

/-- A table with one null, one empty, one whitespace-only and one real
cohort label. -/
def frameBlanks : Frame :=
  ⟨["internal_note"],
   [rowWithNote none, rowWithNote (some ""), rowWithNote (some "   "),
    rowWithNote (some "A")]⟩

/-- Witness for C7: on the concrete table, the real label strips nonempty,
the null row changes nothing, and the breakdown-key characterization holds
at the real label. -/
theorem blank_notes_excluded_witness :
    pyStrip "A" ≠ ""
    ∧ internal_note_distribution frameBlanks
        = internal_note_distribution ⟨["internal_note"],
            [rowWithNote (some ""), rowWithNote (some "   "),
             rowWithNote (some "A")]⟩
    ∧ ("A" ∈ internal_notes_analysis_keys frameBlanks
        ↔ (frameBlanks.cols.contains "internal_note" = true
          ∧ some "A" ∈ frameBlanks.rows.map Row.internal_note
          ∧ pyStrip "A" ≠ "")) := by
  refine ⟨?_, ?_, ?_⟩
  · exact blank_notes_excluded.1 frameBlanks "A" (by decide)
  · exact blank_notes_excluded.2.2.1 ["internal_note"]
      [rowWithNote (some ""), rowWithNote (some "   "), rowWithNote (some "A")]
      (rowWithNote none) (Or.inl rfl)
  · exact blank_notes_excluded.2.2.2 frameBlanks "A"

/-! ## Temporal analysis (`_analyze_seasonal_trends`, `_detect_outliers`)

Rows' parsed event timestamps (`pd.to_datetime(..., errors='coerce')`)
become `Option Date` values: `none` is a `NaT` that `dropna` removes, a
`Date` is the calendar day (the analyses below never read times of day).
pandas `resample('M')`/`resample('D')` produce one bucket per calendar
month/day of the min-to-max span, empty buckets counting 0. -/

/-- A parsed calendar date. -/
structure Date where
  y : Int
  m : Nat
  d : Nat
deriving DecidableEq

/-- The linear month index of a date. -/
def monthIdx (dt : Date) : Int := dt.y * 12 + (dt.m : Int) - 1

/-- The day number of a date (days since 1970-01-01, civil Gregorian
calendar — the standard days-from-civil computation). -/
def dayIdx (dt : Date) : Int :=
  let y2 : Int := if dt.m ≤ 2 then dt.y - 1 else dt.y
  let era : Int := (if 0 ≤ y2 then y2 else y2 - 399) / 400
  let yoe : Int := y2 - era * 400
  let mp : Int := ((dt.m : Int) + 9) % 12
  let doy : Int := (153 * mp + 2) / 5 + (dt.d : Int) - 1
  let doe : Int := yoe * 365 + yoe / 4 - yoe / 100 + doy
  era * 146097 + doe - 719468

/-- Distinct integers in first-occurrence order. -/
def dedupInt (xs : List Int) : List Int :=
  xs.foldl (fun acc x => if acc.contains x then acc else acc ++ [x]) []

/-- `resample('M').size()`: one count per calendar month from the earliest
to the latest observed month, missing months counting 0. -/
def monthlyCounts (dates : List Date) : List Nat :=
  match dates.map monthIdx with
  | [] => []
  | i :: is =>
    (List.range (((is.foldl max i) - (is.foldl min i)).toNat + 1)).map
      (fun k => (i :: is).count ((is.foldl min i) + (k : Int)))

/-- `_analyze_seasonal_trends` over the non-null date column: the monthly
resample decides the trend label. -/
def seasonal_trend (dates : List Date) : String :=
  let cs := monthlyCounts dates
  if cs.length = 0 then "insufficient_data"
  else if cs.length > 1 then
    (if cs.getLastD 0 > cs.headD 0 then "increasing" else "declining")
  else "stable"

/-- The number of distinct calendar months among the observed dates (what
the spec calls months "existing in the observed range"). -/
def distinctMonths (dates : List Date) : Nat :=
  (dedupInt (dates.map monthIdx)).length

/-- C8 counterexample: a single observed month yields trend "stable", not
"insufficient_data"; and two months with equal counts yield "declining",
not "stable". -/
theorem seasonal_trend_counterexample :
    distinctMonths [⟨2024, 1, 5⟩] = 1
    ∧ seasonal_trend [⟨2024, 1, 5⟩] = "stable"
    ∧ seasonal_trend [⟨2024, 1, 5⟩] ≠ "insufficient_data"
    ∧ distinctMonths [⟨2024, 1, 5⟩, ⟨2024, 2, 5⟩] = 2
    ∧ monthlyCounts [⟨2024, 1, 5⟩, ⟨2024, 2, 5⟩] = [1, 1]
    ∧ seasonal_trend [⟨2024, 1, 5⟩, ⟨2024, 2, 5⟩] = "declining"
    ∧ seasonal_trend [⟨2024, 1, 5⟩, ⟨2024, 2, 5⟩] ≠ "stable" := by
  refine ⟨by decide, by decide, by decide, by decide, by decide, by decide,
    by decide⟩

/-- C8 amended: the monthly-trend direction is "insufficient_data" exactly
when there are no dated rows; "stable" exactly when the observed range
spans a single calendar month; and with two or more months in the span it
is "increasing" when the last month's count strictly exceeds the first
month's and "declining" otherwise — including when they are equal. -/
theorem seasonal_trend_spec (dates : List Date) :
    (dates = [] → seasonal_trend dates = "insufficient_data")
    ∧ ((monthlyCounts dates).length = 1 → seasonal_trend dates = "stable")
    ∧ ((monthlyCounts dates).length > 1 →
        ((monthlyCounts dates).headD 0 < (monthlyCounts dates).getLastD 0 →
          seasonal_trend dates = "increasing")
        ∧ ((monthlyCounts dates).getLastD 0 ≤ (monthlyCounts dates).headD 0 →
          seasonal_trend dates = "declining")) := by
  refine ⟨?_, ?_, ?_⟩
  · intro h
    subst h
    rfl
  · intro h
    simp [seasonal_trend, h]
  · intro h
    have h0 : ¬ (monthlyCounts dates).length = 0 := by omega
    constructor
    · intro h2
      have h2b : (monthlyCounts dates).head?.getD 0
          < (monthlyCounts dates).getLast?.getD 0 := by simpa using h2
      simp [seasonal_trend, h0, h, h2b]
    · intro h2
      have h3 : ¬ ((monthlyCounts dates).head?.getD 0
          < (monthlyCounts dates).getLast?.getD 0) := by
        have e1 := List.headD_eq_head? (monthlyCounts dates) 0
        have e2 := List.getLastD_eq_getLast? 0 (monthlyCounts dates)
        rw [← e1, ← e2]
        omega
      simp [seasonal_trend, h0, h, h3]

/-- Witness for C8 (amended): the three branches evaluated on concrete
date lists. -/
theorem seasonal_trend_spec_witness :
    seasonal_trend [] = "insufficient_data"
    ∧ seasonal_trend [⟨2024, 3, 1⟩, ⟨2024, 3, 20⟩] = "stable"
    ∧ seasonal_trend [⟨2024, 1, 5⟩, ⟨2024, 2, 5⟩, ⟨2024, 2, 6⟩] = "increasing"
    ∧ seasonal_trend [⟨2024, 1, 5⟩, ⟨2024, 2, 5⟩] = "declining" := by
  refine ⟨?_, ?_, ?_, ?_⟩
  · exact (seasonal_trend_spec []).1 rfl
  · exact (seasonal_trend_spec [⟨2024, 3, 1⟩, ⟨2024, 3, 20⟩]).2.1 (by decide)
  · exact ((seasonal_trend_spec [⟨2024, 1, 5⟩, ⟨2024, 2, 5⟩, ⟨2024, 2, 6⟩]).2.2
      (by decide)).1 (by decide)
  · exact ((seasonal_trend_spec [⟨2024, 1, 5⟩, ⟨2024, 2, 5⟩]).2.2
      (by decide)).2 (by decide)

/-- `resample('D').size()`: one (day, count) bucket per calendar day from
the earliest to the latest observed day, missing days counting 0. -/
def dailyCounts (ds : List Date) : List (Int × Nat) :=
  match ds.map dayIdx with
  | [] => []
  | i :: is =>
    (List.range (((is.foldl max i) - (is.foldl min i)).toNat + 1)).map
      (fun k => ((is.foldl min i) + (k : Int),
        (i :: is).count ((is.foldl min i) + (k : Int))))

/-- The sum of the daily counts. -/
def countsSum (dc : List (Int × Nat)) : Int :=
  (dc.map (fun p => (p.2 : Int))).sum

/-- The squared deviation of one count from the mean, scaled by `n²`:
`(n·c − S)²`, where `S` is the counts' sum and `n` the number of days. -/
def scaledDevSq (n s c : Int) : Int := (n * c - s) * (n * c - s)

/-- `abs(zscore) > 2` for one day, as an exact integer test.  With mean
`μ = S/n` and population variance `σ² = Σⱼ(cⱼ−μ)²/n` (scipy `zscore` uses
`ddof=0`), the test `(c−μ)² > 4σ²` — the square of `|z| > 2` — multiplies
through by `n³ > 0` into `n·(n·c−S)² > 4·Σⱼ(n·cⱼ−S)²`.  When `σ = 0`
both sides are 0 and no day is flagged, matching scipy's `NaN` z-scores
there. -/
def isOutlierDay (dc : List (Int × Nat)) (p : Int × Nat) : Bool :=
  decide (4 * (dc.map (fun q =>
      scaledDevSq (dc.length : Int) (countsSum dc) (q.2 : Int))).sum
    < (dc.length : Int) * scaledDevSq (dc.length : Int) (countsSum dc) (p.2 : Int))

/-- `AnalyticsService._detect_outliers` over the date column: the flagged
`high_activity_days` (as day-number/count pairs) and `anomaly_detection`. -/
def detect_outliers (dates : List (Option Date)) : List (Int × Nat) × Bool :=
  let ds := dates.filterMap id
  if ds.length < 3 then ([], false)
  else
    let dc := dailyCounts ds
    if dc.length < 3 then ([], false)
    else
      let outliers := dc.filter (isOutlierDay dc)
      (outliers, decide (0 < outliers.length))

/-- The number of distinct days among the dated rows. -/
def distinctDays (dates : List (Option Date)) : Nat :=
  (dedupInt ((dates.filterMap id).map dayIdx)).length

/-- The concrete C9 input: nine events on 2024-01-01 and one on
2024-01-10. -/
def spikeDates : List (Option Date) :=
  (List.replicate 9 (some (⟨2024, 1, 1⟩ : Date))) ++ [some (⟨2024, 1, 10⟩ : Date)]

/-- C9 counterexample: the spike input has only two distinct days, yet the
detector flags the first day (|z| ≈ 2.98 > 2) and reports
`anomaly_detection = true`, refuting the claimed empty outlier set and
false flag below 3 distinct days. -/
theorem detect_outliers_counterexample :
    distinctDays spikeDates = 2
    ∧ (detect_outliers spikeDates).2 = true
    ∧ (detect_outliers spikeDates).1 ≠ [] := by
  refine ⟨by decide, by decide, by decide⟩

/-- C9 amended: the detector is gated on at least 3 dated rows and a
min-to-max span of at least 3 calendar days (not 3 distinct days); past
the gate it flags exactly the days of the span — absent days counting 0 —
whose count deviates from the mean by more than two population standard
deviations, and `anomaly_detection` holds exactly when some day is
flagged. -/
theorem detect_outliers_spec (dates : List (Option Date)) :
    ((dates.filterMap id).length < 3 → detect_outliers dates = ([], false))
    ∧ ((dailyCounts (dates.filterMap id)).length < 3 →
        detect_outliers dates = ([], false))
    ∧ (3 ≤ (dates.filterMap id).length →
        3 ≤ (dailyCounts (dates.filterMap id)).length →
        (detect_outliers dates).1
            = (dailyCounts (dates.filterMap id)).filter
                (isOutlierDay (dailyCounts (dates.filterMap id)))
          ∧ (detect_outliers dates).2
            = decide (0 < (detect_outliers dates).1.length)) := by
  refine ⟨?_, ?_, ?_⟩
  · intro h
    simp [detect_outliers, h]
  · intro h
    unfold detect_outliers
    by_cases h1 : (dates.filterMap id).length < 3
    · simp [h1]
    · simp [h1, h]
  · intro h1 h2
    have h1n : ¬ (dates.filterMap id).length < 3 := by omega
    have h2n : ¬ (dailyCounts (dates.filterMap id)).length < 3 := by omega
    constructor
    · simp [detect_outliers, h1n, h2n]
    · simp [detect_outliers, h1n, h2n]

/-- Witness for C9 (amended): the gate on a two-row input and the flagged
set on the concrete spike input. -/
theorem detect_outliers_spec_witness :
    detect_outliers [some (⟨2024, 1, 1⟩ : Date), some (⟨2024, 1, 2⟩ : Date)]
      = ([], false)
    ∧ (detect_outliers spikeDates).1
      = (dailyCounts (spikeDates.filterMap id)).filter
          (isOutlierDay (dailyCounts (spikeDates.filterMap id))) := by
  constructor
  · exact (detect_outliers_spec
      [some (⟨2024, 1, 1⟩ : Date), some (⟨2024, 1, 2⟩ : Date)]).1 (by decide)
  · exact ((detect_outliers_spec spikeDates).2.2 (by decide) (by decide)).1

/-- A pair routes to extracted field `f`. -/
def qaRoutesTo (qa : Json) (f : QaField) : Bool :=
  decide (qaFieldOf ((qa.lookup "question").getD (Json.str "")).asStr = some f)

/-- Reading back the field just set. -/
theorem getQaField_set_same (r : Row) (f : QaField) (a : String) :
    getQaField (setQaField r f a) f = some a := by
  cases f <;> rfl

/-- Setting one field leaves the others unchanged. -/
theorem getQaField_set_other (r : Row) (f g : QaField) (a : String)
    (h : g ≠ f) : getQaField (setQaField r g a) f = getQaField r f := by
  cases f <;> cases g <;> first | exact absurd rfl h | rfl

/-- The extraction loop keeps, for each field, the answer of the last pair
routed to it (the initial row's value when no pair is). -/
theorem extractQa_last_wins (qas : List Json) :
    ∀ (r : Row) (f : QaField),
    getQaField (extractQaFields r qas) f
      = (match (qas.filter (fun qa => qaRoutesTo qa f)).getLast? with
         | some qa => some ((qa.lookup "answer").getD (Json.str "")).asStr
         | none => getQaField r f) := by
  induction qas with
  | nil => intro r f; rfl
  | cons qa qas ih =>
    intro r f
    have hstep : extractQaFields r (qa :: qas)
        = extractQaFields (applyQa r qa) qas := rfl
    rw [hstep, ih (applyQa r qa) f]
    by_cases hm : qaRoutesTo qa f = true
    · have hfc : List.filter (fun x => qaRoutesTo x f) (qa :: qas)
          = qa :: List.filter (fun x => qaRoutesTo x f) qas := by
        simp [List.filter_cons, hm]
      rw [hfc]
      cases hrest : qas.filter (fun x => qaRoutesTo x f) with
      | nil =>
        have hq : qaFieldOf ((qa.lookup "question").getD (Json.str "")).asStr
            = some f := by simpa [qaRoutesTo] using hm
        simp [hrest, applyQa, hq, getQaField_set_same]
      | cons b l =>
        rw [List.getLast?_cons_cons]
        cases hl : (b :: l).getLast? with
        | none => simp at hl
        | some x => rfl
    · have hmf : qaRoutesTo qa f = false := by simpa using hm
      have hfc : List.filter (fun x => qaRoutesTo x f) (qa :: qas)
          = List.filter (fun x => qaRoutesTo x f) qas := by
        simp [List.filter_cons, hmf]
      rw [hfc]
      cases hrest : qas.filter (fun x => qaRoutesTo x f) with
      | nil =>
        have hq : ¬ (qaFieldOf ((qa.lookup "question").getD (Json.str "")).asStr
            = some f) := by simpa [qaRoutesTo] using hm
        cases hqa : qaFieldOf ((qa.lookup "question").getD (Json.str "")).asStr with
        | none => simp [hrest, applyQa, hqa]
        | some g =>
          have hgf : g ≠ f := by
            intro he
            subst he
            exact hq hqa
          simp [hrest, applyQa, hqa, getQaField_set_other _ _ _ _ hgf]
      | cons b l =>
        cases hl : (b :: l).getLast? with
        | none => simp at hl
        | some x => rfl

/-- C10: each questions/answers pair sets at most one extracted field,
chosen by first-match over the ordered case-insensitive substring tests
("service" and "interested" → interested_service; else "how did you find"
or "find us" → discovery_channel; else "website" → website_url; else
"phone" → phone_number; else "linkedin" and "profile" → linkedin_url;
else no field); and for each field, the answer of the last pair of the
invitee routed to it is the one kept. -/
theorem qa_extraction_priority_and_last_wins :
    (∀ q : String,
      ((strContains (pyLower q) "service"
          && strContains (pyLower q) "interested") = true →
        qaFieldOf q = some QaField.interested_service)
      ∧ ((strContains (pyLower q) "service"
          && strContains (pyLower q) "interested") = false →
         (strContains (pyLower q) "how did you find"
          || strContains (pyLower q) "find us") = true →
         qaFieldOf q = some QaField.discovery_channel)
      ∧ ((strContains (pyLower q) "service"
          && strContains (pyLower q) "interested") = false →
         (strContains (pyLower q) "how did you find"
          || strContains (pyLower q) "find us") = false →
         strContains (pyLower q) "website" = true →
         qaFieldOf q = some QaField.website_url)
      ∧ ((strContains (pyLower q) "service"
          && strContains (pyLower q) "interested") = false →
         (strContains (pyLower q) "how did you find"
          || strContains (pyLower q) "find us") = false →
         strContains (pyLower q) "website" = false →
         strContains (pyLower q) "phone" = true →
         qaFieldOf q = some QaField.phone_number)
      ∧ ((strContains (pyLower q) "service"
          && strContains (pyLower q) "interested") = false →
         (strContains (pyLower q) "how did you find"
          || strContains (pyLower q) "find us") = false →
         strContains (pyLower q) "website" = false →
         strContains (pyLower q) "phone" = false →
         (strContains (pyLower q) "linkedin"
          && strContains (pyLower q) "profile") = true →
         qaFieldOf q = some QaField.linkedin_url)
      ∧ ((strContains (pyLower q) "service"
          && strContains (pyLower q) "interested") = false →
         (strContains (pyLower q) "how did you find"
          || strContains (pyLower q) "find us") = false →
         strContains (pyLower q) "website" = false →
         strContains (pyLower q) "phone" = false →
         (strContains (pyLower q) "linkedin"
          && strContains (pyLower q) "profile") = false →
         qaFieldOf q = none))
    ∧ (∀ (r : Row) (qas : List Json) (f : QaField),
        getQaField (extractQaFields r qas) f
          = (match (qas.filter (fun qa => qaRoutesTo qa f)).getLast? with
             | some qa => some ((qa.lookup "answer").getD (Json.str "")).asStr
             | none => getQaField r f)) := by
  constructor
  · intro q
    refine ⟨?_, ?_, ?_, ?_, ?_, ?_⟩
    · intro h1
      simp [qaFieldOf, h1]
    · intro h1 h2
      simp [qaFieldOf, h1, h2]
    · intro h1 h2 h3
      simp [qaFieldOf, h1, h2, h3]
    · intro h1 h2 h3 h4
      simp [qaFieldOf, h1, h2, h3, h4]
    · intro h1 h2 h3 h4 h5
      simp [qaFieldOf, h1, h2, h3, h4, h5]
    · intro h1 h2 h3 h4 h5
      simp [qaFieldOf, h1, h2, h3, h4, h5]
  · intro r qas f
    exact extractQa_last_wins qas r f

/-- Witness for C10: routing on three concrete questions, and last-wins on
two service pairs of one invitee. -/
theorem qa_extraction_witness :
    qaFieldOf "What SERVICE are you interested in?"
        = some QaField.interested_service
    ∧ qaFieldOf "How did you find us?" = some QaField.discovery_channel
    ∧ qaFieldOf "Anything else?" = none
    ∧ getQaField (extractQaFields {}
        [Json.obj [("question", Json.str "What service are you interested in?"),
          ("answer", Json.str "SEO")],
         Json.obj [("question", Json.str "Which service are you interested in?"),
          ("answer", Json.str "PPC")]]) QaField.interested_service
      = some "PPC" := by
  refine ⟨?_, ?_, ?_, ?_⟩
  · exact (qa_extraction_priority_and_last_wins.1
      "What SERVICE are you interested in?").1 (by decide)
  · exact (qa_extraction_priority_and_last_wins.1
      "How did you find us?").2.1 (by decide) (by decide)
  · exact (qa_extraction_priority_and_last_wins.1
      "Anything else?").2.2.2.2.2 (by decide) (by decide) (by decide)
      (by decide) (by decide)
  · rw [qa_extraction_priority_and_last_wins.2 {}
      [Json.obj [("question", Json.str "What service are you interested in?"),
        ("answer", Json.str "SEO")],
       Json.obj [("question", Json.str "Which service are you interested in?"),
        ("answer", Json.str "PPC")]] QaField.interested_service]
    decide
